import Mathlib

/-!
# Verification of `pyvlx/node_updater.py` (Notification Reconciler)

Shallow embedding of `NodeUpdater` from `src/pyvlx/node_updater.py`.

The Parameter Codec (`pyvlx/parameter.py`), the frame classes
(`pyvlx/api/frames`), the node classes (`pyvlx/opening_device.py`,
`pyvlx/lightening_device.py`) and the constants (`pyvlx/const.py`) are
external collaborators that are not under `src/`; following the spec
they are modelled abstractly: every frame field is carried as the already
decoded semantic integer (the codec's `Position(raw).position`,
`Intensity(raw).intensity` values), and `Parameter.MAX` is the codec's
"maximum valid value" threshold used by every range check.

A crucial point of fidelity: `node_updater.py` mentions `OnOffSwitch` and
`SwitchParameter` in its last `elif` branch but never imports either name,
so evaluating that `isinstance` test raises a `NameError` at run time.
The embedding therefore returns `Except PyErr PyVLX`, with
`PyErr.nameError` produced exactly where Python would raise.
-/

/-- Modelled from the spec: the Parameter Codec's "maximum valid value"
threshold (`Parameter.MAX` in `pyvlx/parameter.py`, which is outside
`src/`); decoded values above it denote "no reliable value known". -/
def Parameter.MAX : Int := 51200

/-- Modelled from the spec: the operating-state flag carried by
`NodeStatePositionChanged` / `AllNodesInformation` frames
(`OperatingState` in `pyvlx/const.py`, outside `src/`); the reconciler
only ever compares it against `EXECUTING`. -/
inductive OperatingState where
  | nonExecuting
  | errorExecuting
  | notUsed
  | waitForPower
  | executing
  | done
  | unknown
deriving DecidableEq, Repr

/-- The device-capability class of a node, mirroring the `isinstance`
checks of `node_updater.py`: `Blind` is a subclass of `OpeningDevice`;
`rollerShutter` stands for the opening devices that are not blinds;
`onOffSwitch` and `genericNode` are node classes that are neither
`OpeningDevice` nor `LighteningDevice`. -/
inductive NodeKind where
  | blind
  | rollerShutter
  | lighteningDevice
  | onOffSwitch
  | genericNode
deriving DecidableEq, Repr

/-- `isinstance(node, OpeningDevice)`. -/
def NodeKind.isOpeningDevice : NodeKind → Bool
  | .blind => true
  | .rollerShutter => true
  | _ => false

/-- `isinstance(node, Blind)`. -/
def NodeKind.isBlind : NodeKind → Bool
  | .blind => true
  | _ => false

/-- `isinstance(node, LighteningDevice)`. -/
def NodeKind.isLighteningDevice : NodeKind → Bool
  | .lighteningDevice => true
  | _ => false

/-- The mutable node fields written by `NodeUpdater`, with decoded values
carried as semantic integers and timestamps as integer seconds.
`afterUpdateCount` counts invocations of the node's asynchronous
`after_update` hook (the hook itself is an external collaborator).
`parameter` is the `OnOffSwitch` state field; the reconciler's switch
branch is never reached (see `PyErr.nameError`). -/
structure Node where
  kind : NodeKind
  position : Int
  target : Int
  target_position : Int
  orientation : Int
  intensity : Int
  parameter : Int
  is_opening : Bool
  is_closing : Bool
  state_received_at : Option Int
  estimated_completion : Option Int
  limitation_max : Int
  limitation_min : Int
  limitation_originator : Int
  limitation_time : Int
  afterUpdateCount : Nat
deriving DecidableEq, Repr

/-- `await node.after_update()`: fires the post-update hook once. -/
def afterUpdate (n : Node) : Node :=
  { n with afterUpdateCount := n.afterUpdateCount + 1 }

/-- The node registry `self.pyvlx.nodes`: a partial map from node
identifier to node. -/
structure PyVLX where
  nodes : Nat → Option Node

/-- In-place mutation of the node stored under identifier `i`. -/
def PyVLX.update (s : PyVLX) (i : Nat) (n : Node) : PyVLX :=
  ⟨fun j => if j = i then some n else s.nodes j⟩

/-- Payload of `FrameNodeStatePositionChangedNotification` and
`FrameGetAllNodesInformationNotification` (both are handled identically):
`current_position` and `target` are the decoded `Position(...).position`
values, `remaining_time` is in seconds. -/
structure FrameNSPC where
  node_id : Nat
  current_position : Int
  target : Int
  state : OperatingState
  remaining_time : Int
deriving DecidableEq, Repr

/-- Payload of `FrameStatusRequestNotification`: `parameter_data` is the
frame's parameter map keyed by `NodeParameter` index (0 = main parameter,
3 = functional parameter 3), with decoded values. -/
structure FrameSR where
  node_id : Nat
  parameter_data : Nat → Option Int

/-- Payload of `FrameGetLimitationStatusNotification`, decoded. -/
structure FrameLS where
  node_id : Nat
  max_value : Int
  min_value : Int
  limit_originator : Int
  limit_time : Int
deriving DecidableEq, Repr

/-- The notification kinds dispatched by `NodeUpdater.process_frame`;
`other` covers every frame type not matched by the `isinstance` chain. -/
inductive Frame where
  | nodeStatePositionChanged (f : FrameNSPC)
  | allNodesInformation (f : FrameNSPC)
  | statusRequest (f : FrameSR)
  | limitationStatus (f : FrameLS)
  | other

/-- The Python exception escaping `process_frame`: the final `elif`
evaluates `isinstance(node, OnOffSwitch)`, but `OnOffSwitch` is never
imported by `node_updater.py`, so Python raises `NameError` there. -/
inductive PyErr where
  | nameError
deriving DecidableEq, Repr

/-- The idle/else block of motion inference: two sequential `if`
statements clearing `is_opening` (with both timestamp fields) and
`is_closing` (alone). -/
def clearMotion (node : Node) : Node :=
  let n1 :=
    if node.is_opening then
      { node with
        is_opening := false
        state_received_at := none
        estimated_completion := none }
    else node
  if n1.is_closing then { n1 with is_closing := false } else n1

/-- Guard of the opening branch, Python's chained comparison
`position.position > target.position <= Parameter.MAX` conjoined with
the time signal `frame.state == OperatingState.EXECUTING or
frame.remaining_time > 0`. -/
def openingCond (f : FrameNSPC) : Prop :=
  f.current_position > f.target ∧ f.target ≤ Parameter.MAX ∧
    (f.state = OperatingState.executing ∨ f.remaining_time > 0)

/-- Guard of the closing branch: chained comparison
`position.position < target.position <= Parameter.MAX` with the same
time signal. -/
def closingCond (f : FrameNSPC) : Prop :=
  f.current_position < f.target ∧ f.target ≤ Parameter.MAX ∧
    (f.state = OperatingState.executing ∨ f.remaining_time > 0)

instance (f : FrameNSPC) : Decidable (openingCond f) := by
  unfold openingCond
  infer_instance

instance (f : FrameNSPC) : Decidable (closingCond f) := by
  unfold closingCond
  infer_instance

/-- The motion-state inference block of `process_frame` (the body of the
first `if isinstance(node, OpeningDevice)`). -/
def motionInference (node : Node) (f : FrameNSPC) (now : Int) : Node :=
  if openingCond f then
    { node with
      is_opening := true
      state_received_at := some now
      estimated_completion := some (now + f.remaining_time) }
  else if closingCond f then
    { node with
      is_closing := true
      state_received_at := some now
      estimated_completion := some (now + f.remaining_time) }
  else
    clearMotion node

/-- The `FrameNodeStatePositionChangedNotification` /
`FrameGetAllNodesInformationNotification` handling inside
`process_frame`: motion inference, then the capability `elif` chain.
The second `elif isinstance(node, OpeningDevice)` branch is embedded
as written in the source, guard repeated. The final
`elif isinstance(node, OnOffSwitch)` raises `NameError` because the name
is unbound; no field was mutated before that point on that path. -/
def processNSPC (s : PyVLX) (now : Int) (f : FrameNSPC) : Except PyErr PyVLX :=
  match s.nodes f.node_id with
  | none => .ok s
  | some node =>
    let node1 := if node.kind.isOpeningDevice then motionInference node f now else node
    if node1.kind.isOpeningDevice then
      let node2 :=
        if f.current_position ≤ Parameter.MAX then
          { node1 with position := f.current_position, target := f.target }
        else node1
      .ok (s.update f.node_id (afterUpdate node2))
    else if node1.kind.isOpeningDevice then
      let node2 :=
        if f.current_position ≤ Parameter.MAX then
          { node1 with position := f.current_position }
        else node1
      let node3 :=
        if f.target ≤ Parameter.MAX then
          { node2 with target_position := f.target }
        else node2
      .ok (s.update f.node_id (afterUpdate node3))
    else if node1.kind.isLighteningDevice then
      let node2 :=
        if f.current_position ≤ Parameter.MAX then
          { node1 with intensity := f.current_position }
        else node1
      .ok (s.update f.node_id (afterUpdate node2))
    else
      .error PyErr.nameError

/-- `NodeUpdater.process_frame_status_request_notification`. -/
def process_frame_status_request (s : PyVLX) (f : FrameSR) : PyVLX :=
  match s.nodes f.node_id with
  | none => s
  | some node =>
    if node.kind.isBlind then
      match f.parameter_data 0, f.parameter_data 3 with
      | some mp, some fp3 =>
        let node1 :=
          if mp ≤ Parameter.MAX then { node with position := mp } else node
        let node2 :=
          if fp3 ≤ Parameter.MAX then { node1 with orientation := fp3 } else node1
        s.update f.node_id (afterUpdate node2)
      | _, _ => s
    else s

/-- `NodeUpdater.process_frame_limitation_status_notification`. -/
def process_frame_limitation_status (s : PyVLX) (f : FrameLS) : PyVLX :=
  match s.nodes f.node_id with
  | none => s
  | some node =>
    if node.kind.isOpeningDevice then
      s.update f.node_id (afterUpdate
        { node with
          limitation_max := f.max_value
          limitation_min := f.min_value
          limitation_originator := f.limit_originator
          limitation_time := f.limit_time })
    else s

/-- `NodeUpdater.process_frame`: the reconcile entry point. `now` is the
value `datetime.datetime.now()` would return during this call. -/
def NodeUpdater.process_frame (s : PyVLX) (now : Int) : Frame → Except PyErr PyVLX
  | .nodeStatePositionChanged f => processNSPC s now f
  | .allNodesInformation f => processNSPC s now f
  | .statusRequest f => .ok (process_frame_status_request s f)
  | .limitationStatus f => .ok (process_frame_limitation_status s f)
  | .other => .ok s

/-- A sequence of reconcile calls, stopping at the first raised
exception (an exception aborts the delivery loop). -/
def process_frames (s : PyVLX) : List (Int × Frame) → Except PyErr PyVLX
  | [] => .ok s
  | (now, f) :: rest =>
    match NodeUpdater.process_frame s now f with
    | .ok s1 => process_frames s1 rest
    | .error e => .error e

/-! ## Concrete sample values used by witnesses and counterexamples -/

/-- A blind at rest: both motion flags false, no timestamps. -/
def idleBlind : Node :=
  { kind := NodeKind.blind
    position := 20
    target := 20
    target_position := 7
    orientation := 11
    intensity := 0
    parameter := 0
    is_opening := false
    is_closing := false
    state_received_at := none
    estimated_completion := none
    limitation_max := 0
    limitation_min := 0
    limitation_originator := 0
    limitation_time := 0
    afterUpdateCount := 0 }

/-- A registry holding `idleBlind` under identifier 1. -/
def sampleS : PyVLX := ⟨fun j => if j = 1 then some idleBlind else none⟩

/-- A registry holding an `OnOffSwitch` node under identifier 1. -/
def switchS : PyVLX :=
  ⟨fun j => if j = 1 then some { idleBlind with kind := NodeKind.onOffSwitch } else none⟩

/-- The empty registry. -/
def emptyS : PyVLX := ⟨fun _ => none⟩

/-- A blind recorded as closing, with both timestamp fields set. -/
def closingBlind : Node :=
  { idleBlind with
    is_closing := true
    state_received_at := some 2
    estimated_completion := some 42 }

/-- A registry holding `closingBlind` under identifier 1. -/
def closingS : PyVLX := ⟨fun j => if j = 1 then some closingBlind else none⟩

/-- A frame whose position exceeds its (valid) target while executing:
takes the opening branch. -/
def openingF : FrameNSPC :=
  { node_id := 1, current_position := 30, target := 10,
    state := OperatingState.executing, remaining_time := 10 }

/-- A frame whose position is below its (valid) target while executing:
takes the closing branch. -/
def closingF : FrameNSPC :=
  { node_id := 1, current_position := 10, target := 30,
    state := OperatingState.executing, remaining_time := 30 }

/-- A settled frame (position = target, DONE, no remaining time): takes
the idle branch. -/
def idleF : FrameNSPC :=
  { node_id := 1, current_position := 30, target := 30,
    state := OperatingState.done, remaining_time := 0 }

/-- A frame with a valid position but a target decoding to the
out-of-range sentinel 0xF7FF (63487 > Parameter.MAX). -/
def invalidTargetF : FrameNSPC :=
  { node_id := 1, current_position := 25, target := 63487,
    state := OperatingState.done, remaining_time := 0 }

/-- A frame whose position decodes to the out-of-range sentinel. -/
def invalidPosF : FrameNSPC :=
  { node_id := 1, current_position := 63487, target := 20,
    state := OperatingState.done, remaining_time := 0 }

/-- The motion-relevant view of a node: both flags and both timestamp
fields. -/
def motionTuple (n : Node) : Bool × Bool × Option Int × Option Int :=
  (n.is_opening, n.is_closing, n.state_received_at, n.estimated_completion)

/-- The node stored under identifier 1 after `closingF` is reconciled
against `sampleS` at time 0 (shape produced by the opening-device branch
of the position-changed handler). -/
def blindAfterClosingF : Node :=
  afterUpdate
    (if closingF.current_position ≤ Parameter.MAX then
      { motionInference idleBlind closingF 0 with
        position := closingF.current_position, target := closingF.target }
    else motionInference idleBlind closingF 0)


/-! ## Basic lemmas about the registry and the node-local operations -/

theorem process_frame_statusRequest_eq (s : PyVLX) (now : Int) (f : FrameSR) :
    NodeUpdater.process_frame s now (Frame.statusRequest f) =
      .ok (process_frame_status_request s f) := rfl

theorem process_frame_limitationStatus_eq (s : PyVLX) (now : Int) (f : FrameLS) :
    NodeUpdater.process_frame s now (Frame.limitationStatus f) =
      .ok (process_frame_limitation_status s f) := rfl

theorem process_frame_nspc_eq (s : PyVLX) (now : Int) (f : FrameNSPC) :
    NodeUpdater.process_frame s now (Frame.nodeStatePositionChanged f) =
      processNSPC s now f := rfl

theorem process_frame_ani_eq (s : PyVLX) (now : Int) (f : FrameNSPC) :
    NodeUpdater.process_frame s now (Frame.allNodesInformation f) =
      processNSPC s now f := rfl

theorem PyVLX.update_self (s : PyVLX) (i : Nat) (n : Node) :
    (s.update i n).nodes i = some n := by
  simp [PyVLX.update]

theorem PyVLX.update_other (s : PyVLX) (i : Nat) (n : Node) (j : Nat) (h : j ≠ i) :
    (s.update i n).nodes j = s.nodes j := by
  simp [PyVLX.update, h]

theorem afterUpdate_kind (n : Node) : (afterUpdate n).kind = n.kind := rfl

theorem motionInference_kind (node : Node) (f : FrameNSPC) (now : Int) :
    (motionInference node f now).kind = node.kind := by
  simp only [motionInference, clearMotion]
  split_ifs <;> rfl

theorem motionInference_position (node : Node) (f : FrameNSPC) (now : Int) :
    (motionInference node f now).position = node.position := by
  simp only [motionInference, clearMotion]
  split_ifs <;> rfl

theorem motionInference_target (node : Node) (f : FrameNSPC) (now : Int) :
    (motionInference node f now).target = node.target := by
  simp only [motionInference, clearMotion]
  split_ifs <;> rfl

theorem motionInference_target_position (node : Node) (f : FrameNSPC) (now : Int) :
    (motionInference node f now).target_position = node.target_position := by
  simp only [motionInference, clearMotion]
  split_ifs <;> rfl

theorem update_map_field (s : PyVLX) (idx : Nat) (node n' : Node) {α : Type}
    (hn : s.nodes idx = some node) (g : Node → α) (hg : g n' = g node) (i : Nat) :
    ((s.update idx n').nodes i).map g = (s.nodes i).map g := by
  by_cases hi : i = idx
  · subst hi
    rw [PyVLX.update_self, hn]
    simp [hg]
  · rw [PyVLX.update_other _ _ _ _ hi]

theorem processNSPC_opening (s : PyVLX) (now : Int) (f : FrameNSPC) (node : Node)
    (hn : s.nodes f.node_id = some node)
    (hk : node.kind.isOpeningDevice = true) :
    processNSPC s now f = .ok (s.update f.node_id (afterUpdate
      (if f.current_position ≤ Parameter.MAX then
        { motionInference node f now with
          position := f.current_position, target := f.target }
      else motionInference node f now))) := by
  unfold processNSPC
  rw [hn]
  simp only [hk, motionInference_kind, if_true]

theorem processNSPC_lightening (s : PyVLX) (now : Int) (f : FrameNSPC) (node : Node)
    (hn : s.nodes f.node_id = some node)
    (hl : node.kind = NodeKind.lighteningDevice) :
    processNSPC s now f = .ok (s.update f.node_id (afterUpdate
      (if f.current_position ≤ Parameter.MAX then
        { node with intensity := f.current_position }
      else node))) := by
  unfold processNSPC
  rw [hn]
  simp [hl, NodeKind.isOpeningDevice, NodeKind.isLighteningDevice]

theorem processNSPC_raises (s : PyVLX) (now : Int) (f : FrameNSPC) (node : Node)
    (hn : s.nodes f.node_id = some node)
    (ho : node.kind.isOpeningDevice = false)
    (hl : node.kind.isLighteningDevice = false) :
    processNSPC s now f = .error PyErr.nameError := by
  unfold processNSPC
  rw [hn]
  simp [ho, hl]

theorem motionInference_opening (node : Node) (f : FrameNSPC) (now : Int)
    (h : openingCond f) :
    motionInference node f now =
      { node with
        is_opening := true
        state_received_at := some now
        estimated_completion := some (now + f.remaining_time) } := by
  unfold motionInference
  rw [if_pos h]

theorem motionInference_closing (node : Node) (f : FrameNSPC) (now : Int)
    (h1 : ¬ openingCond f) (h2 : closingCond f) :
    motionInference node f now =
      { node with
        is_closing := true
        state_received_at := some now
        estimated_completion := some (now + f.remaining_time) } := by
  unfold motionInference
  rw [if_neg h1, if_pos h2]

theorem motionInference_idle (node : Node) (f : FrameNSPC) (now : Int)
    (h1 : ¬ openingCond f) (h2 : ¬ closingCond f) :
    motionInference node f now = clearMotion node := by
  unfold motionInference
  rw [if_neg h1, if_neg h2]

theorem clearMotion_is_opening (n : Node) : (clearMotion n).is_opening = false := by
  unfold clearMotion
  by_cases h1 : n.is_opening <;> by_cases h2 : n.is_closing <;> simp [h1, h2]

theorem clearMotion_is_closing (n : Node) : (clearMotion n).is_closing = false := by
  unfold clearMotion
  by_cases h1 : n.is_opening <;> by_cases h2 : n.is_closing <;> simp [h1, h2]

theorem motionInference_intensity (node : Node) (f : FrameNSPC) (now : Int) :
    (motionInference node f now).intensity = node.intensity := by
  simp only [motionInference, clearMotion]
  split_ifs <;> rfl

theorem status_request_preserves_motionTuple (s : PyVLX) (f : FrameSR) (i : Nat) :
    ((process_frame_status_request s f).nodes i).map motionTuple =
      (s.nodes i).map motionTuple := by
  unfold process_frame_status_request
  cases hn : s.nodes f.node_id with
  | none => rfl
  | some node =>
    by_cases hb : node.kind.isBlind = true
    · simp only [hb, if_true]
      cases h0 : f.parameter_data 0 with
      | none => cases h3 : f.parameter_data 3 <;> rfl
      | some mp =>
        cases h3 : f.parameter_data 3 with
        | none => rfl
        | some fp3 =>
          apply update_map_field s _ node _ hn
          by_cases hmp : mp ≤ Parameter.MAX <;> by_cases hfp : fp3 ≤ Parameter.MAX <;>
            simp [hmp, hfp, afterUpdate, motionTuple]
    · simp [hb]

theorem limitation_preserves_motionTuple (s : PyVLX) (f : FrameLS) (i : Nat) :
    ((process_frame_limitation_status s f).nodes i).map motionTuple =
      (s.nodes i).map motionTuple := by
  unfold process_frame_limitation_status
  cases hn : s.nodes f.node_id with
  | none => rfl
  | some node =>
    by_cases hk : node.kind.isOpeningDevice = true
    · simp only [hk, if_true]
      apply update_map_field s _ node _ hn
      rfl
    · simp [hk]

theorem status_request_not_blind (s : PyVLX) (f : FrameSR) (node : Node)
    (hn : s.nodes f.node_id = some node)
    (hb : ¬ node.kind.isBlind = true) :
    process_frame_status_request s f = s := by
  unfold process_frame_status_request
  rw [hn]
  simp [hb]

theorem processNSPC_motion_cases (s : PyVLX) (now : Int) (f : FrameNSPC) (s' : PyVLX)
    (i : Nat) (n n' : Node)
    (h : processNSPC s now f = .ok s')
    (hn : s.nodes i = some n) (hn' : s'.nodes i = some n') :
    motionTuple n' = motionTuple n ∨
    (n'.is_opening = true ∧ n'.is_closing = n.is_closing ∧
      ∃ t, n'.estimated_completion = some t) ∨
    (n'.is_closing = true ∧ n'.is_opening = n.is_opening ∧
      ∃ t, n'.estimated_completion = some t) ∨
    (n'.is_opening = false ∧ n'.is_closing = false) := by
  cases hnid : s.nodes f.node_id with
  | none =>
    simp only [processNSPC, hnid, Except.ok.injEq] at h
    subst h
    left
    rw [hn] at hn'
    exact congrArg motionTuple (Option.some.inj hn').symm
  | some node =>
    by_cases hop : node.kind.isOpeningDevice = true
    · rw [processNSPC_opening s now f node hnid hop, Except.ok.injEq] at h
      subst h
      by_cases hi : i = f.node_id
      · subst hi
        rw [hn] at hnid
        have hnode := Option.some.inj hnid
        subst hnode
        rw [PyVLX.update_self] at hn'
        have hn'eq := Option.some.inj hn'
        subst hn'eq
        by_cases ho : openingCond f
        · right; left
          rw [motionInference_opening n f now ho]
          by_cases hp : f.current_position ≤ Parameter.MAX <;>
            simp [hp, afterUpdate]
        · by_cases hc : closingCond f
          · right; right; left
            rw [motionInference_closing n f now ho hc]
            by_cases hp : f.current_position ≤ Parameter.MAX <;>
              simp [hp, afterUpdate]
          · right; right; right
            rw [motionInference_idle n f now ho hc]
            by_cases hp : f.current_position ≤ Parameter.MAX <;>
              simp [hp, afterUpdate, clearMotion_is_opening, clearMotion_is_closing]
      · rw [PyVLX.update_other _ _ _ _ hi, hn] at hn'
        left
        exact congrArg motionTuple (Option.some.inj hn').symm
    · by_cases hl : node.kind.isLighteningDevice = true
      · have hl' : node.kind = NodeKind.lighteningDevice := by
          cases hkind : node.kind <;> simp_all [NodeKind.isLighteningDevice]
        rw [processNSPC_lightening s now f node hnid hl', Except.ok.injEq] at h
        subst h
        by_cases hi : i = f.node_id
        · subst hi
          rw [hn] at hnid
          have hnode := Option.some.inj hnid
          subst hnode
          rw [PyVLX.update_self] at hn'
          have hn'eq := Option.some.inj hn'
          subst hn'eq
          left
          by_cases hp : f.current_position ≤ Parameter.MAX <;>
            simp [hp, afterUpdate, motionTuple]
        · rw [PyVLX.update_other _ _ _ _ hi, hn] at hn'
          left
          exact congrArg motionTuple (Option.some.inj hn').symm
      · rw [processNSPC_raises s now f node hnid (by simpa using hop)
          (by simpa using hl)] at h
        exact absurd h (by simp)

theorem process_frame_motion_cases (s : PyVLX) (now : Int) (frame : Frame) (s' : PyVLX)
    (i : Nat) (n n' : Node)
    (h : NodeUpdater.process_frame s now frame = .ok s')
    (hn : s.nodes i = some n) (hn' : s'.nodes i = some n') :
    motionTuple n' = motionTuple n ∨
    (n'.is_opening = true ∧ n'.is_closing = n.is_closing ∧
      ∃ t, n'.estimated_completion = some t) ∨
    (n'.is_closing = true ∧ n'.is_opening = n.is_opening ∧
      ∃ t, n'.estimated_completion = some t) ∨
    (n'.is_opening = false ∧ n'.is_closing = false) := by
  cases frame with
  | nodeStatePositionChanged f => exact processNSPC_motion_cases s now f s' i n n' h hn hn'
  | allNodesInformation f => exact processNSPC_motion_cases s now f s' i n n' h hn hn'
  | statusRequest f =>
    rw [process_frame_statusRequest_eq, Except.ok.injEq] at h
    subst h
    left
    have hpres := status_request_preserves_motionTuple s f i
    rw [hn, hn'] at hpres
    simpa using hpres
  | limitationStatus f =>
    rw [process_frame_limitationStatus_eq, Except.ok.injEq] at h
    subst h
    left
    have hpres := limitation_preserves_motionTuple s f i
    rw [hn, hn'] at hpres
    simpa using hpres
  | other =>
    rw [show NodeUpdater.process_frame s now Frame.other = .ok s from rfl,
      Except.ok.injEq] at h
    subst h
    left
    rw [hn] at hn'
    exact congrArg motionTuple (Option.some.inj hn').symm

/-! ## Claim theorems -/

/-- C2: the spec's "reconcile never raises" contract is broken by the
code: a `NodeStatePositionChanged` frame addressed to a registered node
that is neither an `OpeningDevice` nor a `LighteningDevice` (here an
`OnOffSwitch`) reaches the `elif isinstance(node, OnOffSwitch)` test,
whose name `OnOffSwitch` is not imported in `node_updater.py`, and the
call raises `NameError` instead of degrading to a no-op. -/
theorem process_frame_raises_name_error_on_switch_node :
    NodeUpdater.process_frame switchS 0
      (Frame.nodeStatePositionChanged
        { node_id := 1, current_position := 20, target := 20,
          state := OperatingState.done, remaining_time := 0 }) =
      .error PyErr.nameError := rfl

/-- C9: a notification of any of the four kinds whose node identifier is
absent from the registry leaves the whole system state unchanged — the
result is exactly the input registry, so no node field is mutated, no
post-update hook fires, and no exception is raised. -/
theorem unknown_node_id_noop (s : PyVLX) (now : Int) :
    (∀ f : FrameNSPC, s.nodes f.node_id = none →
        NodeUpdater.process_frame s now (Frame.nodeStatePositionChanged f) = .ok s ∧
        NodeUpdater.process_frame s now (Frame.allNodesInformation f) = .ok s) ∧
    (∀ f : FrameSR, s.nodes f.node_id = none →
        NodeUpdater.process_frame s now (Frame.statusRequest f) = .ok s) ∧
    (∀ f : FrameLS, s.nodes f.node_id = none →
        NodeUpdater.process_frame s now (Frame.limitationStatus f) = .ok s) := by
  refine ⟨fun f h => ⟨?_, ?_⟩, fun f h => ?_, fun f h => ?_⟩ <;>
    simp [NodeUpdater.process_frame, processNSPC, process_frame_status_request,
      process_frame_limitation_status, h]

/-- Witness for C9 at a concrete input: the empty registry is returned
untouched for a concrete position-changed frame. -/
theorem unknown_node_id_noop_witness :
    NodeUpdater.process_frame emptyS 0
      (Frame.nodeStatePositionChanged
        { node_id := 1, current_position := 20, target := 30,
          state := OperatingState.executing, remaining_time := 5 }) =
      .ok emptyS :=
  ((unknown_node_id_noop emptyS 0).1
    { node_id := 1, current_position := 20, target := 30,
      state := OperatingState.executing, remaining_time := 5 } rfl).1

/-- C7: a `LimitationStatus` notification addressed to a registered
opening-capable node unconditionally overwrites all four limitation
fields from the decoded payload — no hypothesis restricts the payload to
the valid range — and fires the post-update hook exactly once. -/
theorem limitation_status_unconditional_overwrite (s : PyVLX) (now : Int)
    (f : FrameLS) (node : Node)
    (hn : s.nodes f.node_id = some node)
    (hk : node.kind.isOpeningDevice = true) :
    ∃ s', NodeUpdater.process_frame s now (Frame.limitationStatus f) = .ok s' ∧
      ∃ n', s'.nodes f.node_id = some n' ∧
        n'.limitation_max = f.max_value ∧
        n'.limitation_min = f.min_value ∧
        n'.limitation_originator = f.limit_originator ∧
        n'.limitation_time = f.limit_time ∧
        n'.afterUpdateCount = node.afterUpdateCount + 1 := by
  refine ⟨process_frame_limitation_status s f, rfl, ?_⟩
  unfold process_frame_limitation_status
  rw [hn]
  simp only [hk, if_true]
  exact ⟨_, PyVLX.update_self _ _ _, rfl, rfl, rfl, rfl, rfl⟩

/-- Witness for C7: limitation bounds far outside the valid percentage
range (63487, the decoded 0xF7FF sentinel) are still written verbatim. -/
theorem limitation_status_unconditional_overwrite_witness :
    ∃ s', NodeUpdater.process_frame sampleS 0
        (Frame.limitationStatus
          { node_id := 1, max_value := 63487, min_value := 63487,
            limit_originator := 7, limit_time := 9 }) = .ok s' ∧
      ∃ n', s'.nodes 1 = some n' ∧
        n'.limitation_max = 63487 ∧
        n'.limitation_min = 63487 ∧
        n'.limitation_originator = 7 ∧
        n'.limitation_time = 9 ∧
        n'.afterUpdateCount = idleBlind.afterUpdateCount + 1 :=
  limitation_status_unconditional_overwrite sampleS 0
    { node_id := 1, max_value := 63487, min_value := 63487,
      limit_originator := 7, limit_time := 9 } idleBlind rfl rfl

/-- C8: for a `StatusRequest` notification addressed to a registered
blind: if the main parameter (index 0) or functional parameter 3
(index 3) is absent from the parameter map, the call returns the registry
unchanged (no write, no hook); when both are present, each decoded value
is written only if it is within the valid range, and the post-update hook
fires exactly once; no other node is touched. -/
theorem status_request_blind_behavior (s : PyVLX) (now : Int) (f : FrameSR)
    (node : Node)
    (hn : s.nodes f.node_id = some node)
    (hk : node.kind.isBlind = true) :
    ((f.parameter_data 0 = none ∨ f.parameter_data 3 = none) →
        NodeUpdater.process_frame s now (Frame.statusRequest f) = .ok s) ∧
    (∀ mp fp3, f.parameter_data 0 = some mp → f.parameter_data 3 = some fp3 →
        ∃ s', NodeUpdater.process_frame s now (Frame.statusRequest f) = .ok s' ∧
          ∃ n', s'.nodes f.node_id = some n' ∧
            n'.position = (if mp ≤ Parameter.MAX then mp else node.position) ∧
            n'.orientation = (if fp3 ≤ Parameter.MAX then fp3 else node.orientation) ∧
            n'.afterUpdateCount = node.afterUpdateCount + 1 ∧
            (∀ j, j ≠ f.node_id → s'.nodes j = s.nodes j)) := by
  constructor
  · intro habs
    rw [process_frame_statusRequest_eq]
    unfold process_frame_status_request
    rw [hn]
    simp only [hk, if_true]
    rcases habs with h | h
    · rw [h]
    · rw [h]
      cases f.parameter_data 0 <;> rfl
  · intro mp fp3 h0 h3
    refine ⟨process_frame_status_request s f, process_frame_statusRequest_eq s now f, ?_⟩
    unfold process_frame_status_request
    rw [hn]
    simp only [hk, if_true, h0, h3]
    refine ⟨_, PyVLX.update_self _ _ _, ?_, ?_, ?_,
      fun j hj => PyVLX.update_other _ _ _ _ hj⟩ <;>
      by_cases hmp : mp ≤ Parameter.MAX <;> by_cases hfp : fp3 ≤ Parameter.MAX <;>
        simp [hmp, hfp, afterUpdate]

/-- Witness for C8 (Scenario C): main parameter 55 and a functional
parameter 3 decoding to the out-of-range sentinel 63487 — position is
written, orientation keeps its old value 11, the hook fires once. -/
theorem status_request_blind_behavior_witness :
    ∃ s', NodeUpdater.process_frame sampleS 0
        (Frame.statusRequest
          { node_id := 1,
            parameter_data := fun k => if k = 0 then some 55
              else if k = 3 then some 63487 else none }) = .ok s' ∧
      ∃ n', s'.nodes 1 = some n' ∧
        n'.position = (if (55 : Int) ≤ Parameter.MAX then 55 else idleBlind.position) ∧
        n'.orientation =
          (if (63487 : Int) ≤ Parameter.MAX then 63487 else idleBlind.orientation) ∧
        n'.afterUpdateCount = idleBlind.afterUpdateCount + 1 ∧
        (∀ j, j ≠ 1 →
          s'.nodes j = sampleS.nodes j) :=
  (status_request_blind_behavior sampleS 0
    { node_id := 1,
      parameter_data := fun k => if k = 0 then some 55
        else if k = 3 then some 63487 else none } idleBlind rfl rfl).2
    55 63487 rfl rfl

theorem processNSPC_preserves_target_position (s : PyVLX) (now : Int) (f : FrameNSPC)
    (s' : PyVLX) (h : processNSPC s now f = .ok s') (i : Nat) :
    (s'.nodes i).map Node.target_position = (s.nodes i).map Node.target_position := by
  cases hn : s.nodes f.node_id with
  | none =>
    simp only [processNSPC, hn, Except.ok.injEq] at h
    subst h
    rfl
  | some node =>
    by_cases hop : node.kind.isOpeningDevice = true
    · rw [processNSPC_opening s now f node hn hop, Except.ok.injEq] at h
      subst h
      apply update_map_field s _ node _ hn
      by_cases hp : f.current_position ≤ Parameter.MAX <;>
        simp [hp, afterUpdate, motionInference_target_position]
    · by_cases hl : node.kind.isLighteningDevice = true
      · have hl' : node.kind = NodeKind.lighteningDevice := by
          cases hkind : node.kind <;> simp_all [NodeKind.isLighteningDevice]
        rw [processNSPC_lightening s now f node hn hl', Except.ok.injEq] at h
        subst h
        apply update_map_field s _ node _ hn
        by_cases hp : f.current_position ≤ Parameter.MAX <;> simp [hp, afterUpdate]
      · rw [processNSPC_raises s now f node hn (by simpa using hop) (by simpa using hl)] at h
        exact absurd h (by simp)

/-- C10: the second opening-device branch of `process_frame` is dead
code: its guard is the same `isinstance(node, OpeningDevice)` test as the
first branch's, which is evaluated earlier, so the path condition of the
second branch is contradictory; consequently no successful `reconcile`
call ever changes the `target_position` field of any node. -/
theorem dead_branch_never_writes_target_position :
    (∀ node1 : Node, node1.kind.isOpeningDevice = false →
        node1.kind.isOpeningDevice = true → False) ∧
    ∀ (s : PyVLX) (now : Int) (frame : Frame) (s' : PyVLX),
      NodeUpdater.process_frame s now frame = .ok s' →
      ∀ i, (s'.nodes i).map Node.target_position = (s.nodes i).map Node.target_position := by
  constructor
  · intro n h1 h2
    rw [h1] at h2
    exact Bool.noConfusion h2
  · intro s now frame s' h i
    cases frame with
    | nodeStatePositionChanged f => exact processNSPC_preserves_target_position s now f s' h i
    | allNodesInformation f => exact processNSPC_preserves_target_position s now f s' h i
    | statusRequest f =>
      rw [process_frame_statusRequest_eq, Except.ok.injEq] at h
      subst h
      unfold process_frame_status_request
      cases hn : s.nodes f.node_id with
      | none => rfl
      | some node =>
        by_cases hb : node.kind.isBlind = true
        · simp only [hb, if_true]
          cases h0 : f.parameter_data 0 with
          | none => cases h3 : f.parameter_data 3 <;> rfl
          | some mp =>
            cases h3 : f.parameter_data 3 with
            | none => rfl
            | some fp3 =>
              apply update_map_field s _ node _ hn
              by_cases hmp : mp ≤ Parameter.MAX <;> by_cases hfp : fp3 ≤ Parameter.MAX <;>
                simp [hmp, hfp, afterUpdate]
        · simp [hb]
    | limitationStatus f =>
      rw [process_frame_limitationStatus_eq, Except.ok.injEq] at h
      subst h
      unfold process_frame_limitation_status
      cases hn : s.nodes f.node_id with
      | none => rfl
      | some node =>
        by_cases hk : node.kind.isOpeningDevice = true
        · simp only [hk, if_true]
          apply update_map_field s _ node _ hn
          rfl
        · simp [hk]
    | other =>
      rw [show NodeUpdater.process_frame s now Frame.other = .ok s from rfl,
        Except.ok.injEq] at h
      subst h
      rfl

/-- Witness for C10 at a concrete successful reconcile: a frame that
takes the opening branch and writes position and target still leaves
`target_position` = 7 on node 1. -/
theorem dead_branch_never_writes_target_position_witness :
    ((sampleS.update 1 (afterUpdate
      (if openingF.current_position ≤ Parameter.MAX then
        { motionInference idleBlind openingF 5 with
          position := openingF.current_position, target := openingF.target }
      else motionInference idleBlind openingF 5))).nodes 1).map Node.target_position =
      (sampleS.nodes 1).map Node.target_position :=
  dead_branch_never_writes_target_position.2 sampleS 5
    (Frame.nodeStatePositionChanged openingF) _
    (processNSPC_opening sampleS 5 openingF idleBlind rfl rfl) 1

/-- C4: for a position-changed / all-nodes-information frame addressed
to a registered opening-capable node, the directional branches behave as
specified: if `openingCond` holds (position > target, target within the
valid range, and EXECUTING-or-remaining-time time signal) the node
becomes opening with `state_received_at = now` and
`estimated_completion = now + remaining_time`; else if `closingCond`
holds (position < target under the same validity and time conditions)
the node becomes closing with the same timestamp bookkeeping; when
neither guard holds no directional transition is triggered (both flags
end up false). -/
theorem nspc_motion_branches (s : PyVLX) (now : Int) (f : FrameNSPC) (node : Node)
    (hn : s.nodes f.node_id = some node)
    (hk : node.kind.isOpeningDevice = true) :
    ∃ s' n', NodeUpdater.process_frame s now (Frame.nodeStatePositionChanged f) = .ok s' ∧
      NodeUpdater.process_frame s now (Frame.allNodesInformation f) = .ok s' ∧
      s'.nodes f.node_id = some n' ∧
      (openingCond f →
        n'.is_opening = true ∧ n'.state_received_at = some now ∧
        n'.estimated_completion = some (now + f.remaining_time)) ∧
      (¬ openingCond f → closingCond f →
        n'.is_closing = true ∧ n'.state_received_at = some now ∧
        n'.estimated_completion = some (now + f.remaining_time)) ∧
      (¬ openingCond f → ¬ closingCond f →
        n'.is_opening = false ∧ n'.is_closing = false) := by
  refine ⟨_, _, processNSPC_opening s now f node hn hk,
    processNSPC_opening s now f node hn hk, PyVLX.update_self _ _ _,
    ?_, ?_, ?_⟩
  · intro h
    rw [motionInference_opening node f now h]
    by_cases hp : f.current_position ≤ Parameter.MAX <;> simp [hp, afterUpdate]
  · intro h1 h2
    rw [motionInference_closing node f now h1 h2]
    by_cases hp : f.current_position ≤ Parameter.MAX <;> simp [hp, afterUpdate]
  · intro h1 h2
    rw [motionInference_idle node f now h1 h2]
    by_cases hp : f.current_position ≤ Parameter.MAX <;>
      simp [hp, afterUpdate, clearMotion_is_opening, clearMotion_is_closing]

/-- Witness for C4: the concrete opening frame (position 30 > target 10,
EXECUTING, 10 s remaining) on the idle blind at time 5. -/
theorem nspc_motion_branches_witness :
    ∃ s' n', NodeUpdater.process_frame sampleS 5
        (Frame.nodeStatePositionChanged openingF) = .ok s' ∧
      NodeUpdater.process_frame sampleS 5
        (Frame.allNodesInformation openingF) = .ok s' ∧
      s'.nodes openingF.node_id = some n' ∧
      (openingCond openingF →
        n'.is_opening = true ∧ n'.state_received_at = some 5 ∧
        n'.estimated_completion = some (5 + openingF.remaining_time)) ∧
      (¬ openingCond openingF → closingCond openingF →
        n'.is_closing = true ∧ n'.state_received_at = some 5 ∧
        n'.estimated_completion = some (5 + openingF.remaining_time)) ∧
      (¬ openingCond openingF → ¬ closingCond openingF →
        n'.is_opening = false ∧ n'.is_closing = false) :=
  nspc_motion_branches sampleS 5 openingF idleBlind rfl rfl

/-- C6: in the idle/else branch of motion inference (neither directional
guard holds): a previously opening node gets `is_opening`,
`state_received_at` and `estimated_completion` all cleared; a previously
closing node gets `is_closing` cleared, and — as long as the opening
clear did not also run — its two timestamp fields are left exactly as
they were. -/
theorem idle_branch_clear_asymmetry (s : PyVLX) (now : Int) (f : FrameNSPC)
    (node : Node)
    (hn : s.nodes f.node_id = some node)
    (hk : node.kind.isOpeningDevice = true)
    (h1 : ¬ openingCond f) (h2 : ¬ closingCond f) :
    ∃ s' n', NodeUpdater.process_frame s now (Frame.nodeStatePositionChanged f) = .ok s' ∧
      NodeUpdater.process_frame s now (Frame.allNodesInformation f) = .ok s' ∧
      s'.nodes f.node_id = some n' ∧
      (node.is_opening = true →
        n'.is_opening = false ∧ n'.state_received_at = none ∧
        n'.estimated_completion = none) ∧
      (node.is_closing = true → n'.is_closing = false) ∧
      (node.is_closing = true → node.is_opening = false →
        n'.state_received_at = node.state_received_at ∧
        n'.estimated_completion = node.estimated_completion) := by
  refine ⟨_, _, processNSPC_opening s now f node hn hk,
    processNSPC_opening s now f node hn hk, PyVLX.update_self _ _ _,
    ?_, ?_, ?_⟩
  · intro ho
    rw [motionInference_idle node f now h1 h2]
    by_cases hp : f.current_position ≤ Parameter.MAX <;>
      by_cases hc : node.is_closing <;>
        simp [hp, hc, ho, clearMotion, afterUpdate]
  · intro hc
    rw [motionInference_idle node f now h1 h2]
    by_cases hp : f.current_position ≤ Parameter.MAX <;>
      simp [hp, afterUpdate, clearMotion_is_closing]
  · intro hc ho
    rw [motionInference_idle node f now h1 h2]
    by_cases hp : f.current_position ≤ Parameter.MAX <;>
      simp [hp, ho, hc, clearMotion, afterUpdate]

/-- Witness for C6: the settled frame `idleF` on the closing blind —
`is_closing` is cleared while `state_received_at = some 2` and
`estimated_completion = some 42` are untouched. -/
theorem idle_branch_clear_asymmetry_witness :
    ∃ s' n', NodeUpdater.process_frame closingS 9
        (Frame.nodeStatePositionChanged idleF) = .ok s' ∧
      NodeUpdater.process_frame closingS 9
        (Frame.allNodesInformation idleF) = .ok s' ∧
      s'.nodes idleF.node_id = some n' ∧
      (closingBlind.is_opening = true →
        n'.is_opening = false ∧ n'.state_received_at = none ∧
        n'.estimated_completion = none) ∧
      (closingBlind.is_closing = true → n'.is_closing = false) ∧
      (closingBlind.is_closing = true → closingBlind.is_opening = false →
        n'.state_received_at = closingBlind.state_received_at ∧
        n'.estimated_completion = closingBlind.estimated_completion) :=
  idle_branch_clear_asymmetry closingS 9 idleF closingBlind rfl rfl
    (by decide) (by decide)

/-- C1 counterexample: starting from the idle blind, a closing frame
followed by a frame taking the opening branch leaves BOTH `is_opening`
and `is_closing` true — the opening branch does not clear `is_closing`,
refuting the mutual-exclusion invariant over reconcile sequences. -/
theorem both_flags_set_after_opening_on_closing_cex :
    (process_frames sampleS
        [(0, Frame.nodeStatePositionChanged closingF),
         (1, Frame.nodeStatePositionChanged openingF)]).map
      (fun s2 => (s2.nodes 1).map (fun n => (n.is_opening, n.is_closing))) =
      Except.ok (some (true, true)) := rfl

/-- C1 amended: a single reconcile call on a node whose two motion flags
are both false leaves at most one of them set; the full invariant fails
because the opening branch on a node with `is_closing = true` keeps that
flag (see the counterexample). -/
theorem single_reconcile_flag_exclusivity (s : PyVLX) (now : Int) (frame : Frame)
    (s' : PyVLX) (i : Nat) (n n' : Node)
    (h : NodeUpdater.process_frame s now frame = .ok s')
    (hn : s.nodes i = some n) (hn' : s'.nodes i = some n')
    (ho : n.is_opening = false) (hc : n.is_closing = false) :
    n'.is_opening = false ∨ n'.is_closing = false := by
  rcases process_frame_motion_cases s now frame s' i n n' h hn hn' with
    h1 | h1 | h1 | h1
  · simp only [motionTuple, Prod.mk.injEq] at h1
    left
    rw [h1.1, ho]
  · right
    rw [h1.2.1, hc]
  · left
    rw [h1.2.1, ho]
  · left
    exact h1.1

/-- Witness for the amended C1: reconciling the closing frame against
the idle blind sets only the closing flag. -/
theorem single_reconcile_flag_exclusivity_witness :
    blindAfterClosingF.is_opening = false ∨ blindAfterClosingF.is_closing = false :=
  single_reconcile_flag_exclusivity sampleS 0
    (Frame.nodeStatePositionChanged closingF) _ 1 idleBlind blindAfterClosingF
    (processNSPC_opening sampleS 0 closingF idleBlind rfl rfl)
    rfl (PyVLX.update_self _ _ _) rfl rfl

/-- C3 counterexample: a frame with a valid position (25) but a target
decoding to the out-of-range sentinel 63487 overwrites the node's
`target` field (previously 20) with the invalid value — the target write
is guarded only by the position's range check. -/
theorem invalid_target_overwritten_cex :
    (NodeUpdater.process_frame sampleS 0
        (Frame.nodeStatePositionChanged invalidTargetF)).map
      (fun s' => (s'.nodes 1).map Node.target) = Except.ok (some 63487) ∧
    (sampleS.nodes 1).map Node.target = some 20 := ⟨rfl, rfl⟩

/-- C3 amended: an out-of-range decoded value leaves the field it would
populate unchanged for every field except the position-changed frame's
`target`: an invalid `current_position` leaves `position`, `target` and
`intensity` untouched, and an invalid StatusRequest main or functional
parameter leaves `position` or `orientation` untouched; `target`,
however, is written together with a valid position regardless of the
target's own range (see the counterexample). -/
theorem invalid_values_leave_fields_unchanged :
    (∀ (s : PyVLX) (now : Int) (f : FrameNSPC) (s' : PyVLX) (n n' : Node),
      NodeUpdater.process_frame s now (Frame.nodeStatePositionChanged f) = .ok s' →
      s.nodes f.node_id = some n → s'.nodes f.node_id = some n' →
      ¬ f.current_position ≤ Parameter.MAX →
      n'.position = n.position ∧ n'.target = n.target ∧
      n'.intensity = n.intensity) ∧
    (∀ (s : PyVLX) (now : Int) (f : FrameSR) (s' : PyVLX) (n n' : Node) (mp fp3 : Int),
      NodeUpdater.process_frame s now (Frame.statusRequest f) = .ok s' →
      s.nodes f.node_id = some n → s'.nodes f.node_id = some n' →
      f.parameter_data 0 = some mp → f.parameter_data 3 = some fp3 →
      (¬ mp ≤ Parameter.MAX → n'.position = n.position) ∧
      (¬ fp3 ≤ Parameter.MAX → n'.orientation = n.orientation)) ∧
    (∀ (s : PyVLX) (now : Int) (f : FrameNSPC),
      NodeUpdater.process_frame s now (Frame.allNodesInformation f) =
        NodeUpdater.process_frame s now (Frame.nodeStatePositionChanged f)) := by
  refine ⟨?_, ?_, fun _ _ _ => rfl⟩
  · intro s now f s' n n' h hn hn' hp
    rw [process_frame_nspc_eq] at h
    by_cases hop : n.kind.isOpeningDevice = true
    · rw [processNSPC_opening s now f n hn hop, Except.ok.injEq] at h
      subst h
      rw [PyVLX.update_self] at hn'
      have hn'eq := Option.some.inj hn'
      subst hn'eq
      simp [hp, afterUpdate, motionInference_position, motionInference_target,
        motionInference_intensity]
    · by_cases hl : n.kind.isLighteningDevice = true
      · have hl' : n.kind = NodeKind.lighteningDevice := by
          cases hkind : n.kind <;> simp_all [NodeKind.isLighteningDevice]
        rw [processNSPC_lightening s now f n hn hl', Except.ok.injEq] at h
        subst h
        rw [PyVLX.update_self] at hn'
        have hn'eq := Option.some.inj hn'
        subst hn'eq
        simp [hp, afterUpdate]
      · rw [processNSPC_raises s now f n hn (by simpa using hop)
          (by simpa using hl)] at h
        exact absurd h (by simp)
  · intro s now f s' n n' mp fp3 h hn hn' h0 h3
    rw [process_frame_statusRequest_eq, Except.ok.injEq] at h
    subst h
    by_cases hb : n.kind.isBlind = true
    · unfold process_frame_status_request at hn'
      rw [hn] at hn'
      simp only [hb, if_true, h0, h3] at hn'
      rw [PyVLX.update_self] at hn'
      have hn'eq := Option.some.inj hn'
      subst hn'eq
      constructor
      · intro hmp
        by_cases hfp : fp3 ≤ Parameter.MAX <;> simp [hmp, hfp, afterUpdate]
      · intro hfp
        by_cases hmp : mp ≤ Parameter.MAX <;> simp [hmp, hfp, afterUpdate]
    · rw [status_request_not_blind s f n hn hb, hn] at hn'
      cases Option.some.inj hn'
      exact ⟨fun _ => rfl, fun _ => rfl⟩

/-- Witness for the amended C3: the invalid-position frame on the idle
blind leaves position 20, target 20 and intensity 0 unchanged. -/
theorem invalid_values_leave_fields_unchanged_witness :
    (afterUpdate
      (if invalidPosF.current_position ≤ Parameter.MAX then
        { motionInference idleBlind invalidPosF 0 with
          position := invalidPosF.current_position, target := invalidPosF.target }
      else motionInference idleBlind invalidPosF 0)).position = idleBlind.position ∧
    (afterUpdate
      (if invalidPosF.current_position ≤ Parameter.MAX then
        { motionInference idleBlind invalidPosF 0 with
          position := invalidPosF.current_position, target := invalidPosF.target }
      else motionInference idleBlind invalidPosF 0)).target = idleBlind.target ∧
    (afterUpdate
      (if invalidPosF.current_position ≤ Parameter.MAX then
        { motionInference idleBlind invalidPosF 0 with
          position := invalidPosF.current_position, target := invalidPosF.target }
      else motionInference idleBlind invalidPosF 0)).intensity = idleBlind.intensity :=
  invalid_values_leave_fields_unchanged.1 sampleS 0 invalidPosF _ idleBlind _
    (processNSPC_opening sampleS 0 invalidPosF idleBlind rfl rfl)
    rfl (PyVLX.update_self _ _ _) (by decide)

/-- C5 counterexample: the closing frame then a settled frame — the idle
branch clears `is_closing` without clearing `estimated_completion`, so
afterwards neither flag is set yet `estimated_completion = some 30`,
refuting the if-and-only-if. -/
theorem estimated_completion_without_motion_cex :
    (process_frames sampleS
        [(0, Frame.nodeStatePositionChanged closingF),
         (10, Frame.nodeStatePositionChanged idleF)]).map
      (fun s2 => (s2.nodes 1).map
        (fun n => (n.is_opening, n.is_closing, n.estimated_completion))) =
      Except.ok (some (false, false, some 30)) := rfl

/-- C5 amended: only the forward direction holds as an invariant: any
successful reconcile call preserves "if the node is opening or closing
then `estimated_completion` is present"; the converse fails because the
idle-branch closing-clear leaves `estimated_completion` set (see the
counterexample). -/
theorem motion_implies_estimated_completion_invariant (s : PyVLX) (now : Int)
    (frame : Frame) (s' : PyVLX) (i : Nat) (n n' : Node)
    (h : NodeUpdater.process_frame s now frame = .ok s')
    (hn : s.nodes i = some n) (hn' : s'.nodes i = some n')
    (hinv : n.is_opening = true ∨ n.is_closing = true →
      ∃ t, n.estimated_completion = some t) :
    n'.is_opening = true ∨ n'.is_closing = true →
      ∃ t, n'.estimated_completion = some t := by
  rcases process_frame_motion_cases s now frame s' i n n' h hn hn' with
    h1 | h1 | h1 | h1
  · simp only [motionTuple, Prod.mk.injEq] at h1
    rw [h1.1, h1.2.1, h1.2.2.2]
    exact hinv
  · exact fun _ => h1.2.2
  · exact fun _ => h1.2.2
  · intro hflag
    rcases hflag with hflag | hflag
    · rw [h1.1] at hflag
      exact absurd hflag (by simp)
    · rw [h1.2] at hflag
      exact absurd hflag (by simp)

/-- Witness for the amended C5: the closing frame on the idle blind
yields a closing node, and the invariant delivers its
`estimated_completion`. -/
theorem motion_implies_estimated_completion_invariant_witness :
    ∃ t, blindAfterClosingF.estimated_completion = some t :=
  motion_implies_estimated_completion_invariant sampleS 0
    (Frame.nodeStatePositionChanged closingF) _ 1 idleBlind blindAfterClosingF
    (processNSPC_opening sampleS 0 closingF idleBlind rfl rfl)
    rfl (PyVLX.update_self _ _ _)
    (fun hcontra => absurd hcontra (by decide))
    (Or.inr (by decide))
